import Mathlib

/-!
Verification of the MigratorXpress MCP server core against its specification.

This file is a shallow embedding, in Lean 4, of the core of the
`migratorxpress-mcp` Python repository:

* `src/version.py` — the version model, the static capability registry and
  the capability-resolution rule (`VersionDetector.capabilities`);
* `src/validators.py` — the validated parameter model (`MigrationParams`
  and its three model validators);
* `src/migratorxpress.py` — the command builder (`CommandBuilder.build_command`),
  secret masking (`mask_sensitive`) and the execution wrapper
  (`execute_command`);
* `src/server.py` — the preview and execute tool handlers
  (`handle_preview_command`, `handle_execute_command`).

Python dictionaries keyed by version strings become association lists,
frozensets of identifiers become lists of strings (only membership and
emptiness matter), Python `Optional[T]` becomes `Option T`, raised
exceptions become `Except` values, and the spawned subprocess becomes an
explicit outcome value fed to the wrapper.  Python floats are only ever
stringified by this code, never computed with, so they are embedded as an
opaque wrapper around their decimal rendering.
-/

namespace MXpress

/-! ## Version model (src/version.py) -/

/-- A MigratorXpress version number X.Y.Z (`MigratorXpressVersion` in
`src/version.py`): three non-negative integers. -/
structure MigratorXpressVersion where
  major : Nat
  minor : Nat
  patch : Nat
deriving DecidableEq, Repr

/-- Strict comparison of versions: Python compares the tuples
`(major, minor, patch)` lexicographically (`__lt__` in `src/version.py`). -/
def versionLt (a b : MigratorXpressVersion) : Bool :=
  a.major < b.major
    || (a.major == b.major
        && (a.minor < b.minor || (a.minor == b.minor && a.patch < b.patch)))

/-- Non-strict comparison: `functools.total_ordering` derives `a <= b` as
`a < b or a == b`. -/
def versionLe (a b : MigratorXpressVersion) : Bool :=
  versionLt a b || a == b

/-- Capabilities of one MigratorXpress version (`VersionCapabilities` in
`src/version.py`).  The seven frozensets are embedded as lists of strings. -/
structure VersionCapabilities where
  source_databases : List String
  target_databases : List String
  migration_db_types : List String
  tasks : List String
  fk_modes : List String
  migration_db_modes : List String
  load_modes : List String
  supports_no_banner : Bool := false
  supports_version_flag : Bool := false
  supports_fasttransfer : Bool := false
  supports_license : Bool := false
deriving DecidableEq, Repr

/-- The capability entry of registry version 0.6.24 (the only entry of
`VERSION_REGISTRY` in `src/version.py`). -/
def caps_0_6_24 : VersionCapabilities :=
  { source_databases := ["oracle", "postgresql", "sqlserver", "netezza"]
    target_databases := ["postgresql", "sqlserver"]
    migration_db_types := ["sqlserver"]
    tasks := ["translate", "create", "transfer", "diff", "copy_pk", "copy_ak", "copy_fk", "all"]
    fk_modes := ["trusted", "untrusted", "disabled"]
    migration_db_modes := ["preserve", "truncate", "drop"]
    load_modes := ["truncate", "append"]
    supports_no_banner := true
    supports_version_flag := true
    supports_fasttransfer := true
    supports_license := true }

/-- The registry as sorted by version (`_SORTED_VERSIONS` in
`src/version.py`): the single key "0.6.24" parses to (0, 6, 24). -/
def SORTED_VERSIONS : List (MigratorXpressVersion × VersionCapabilities) :=
  [(⟨0, 6, 24⟩, caps_0_6_24)]

/-- The all-empty capability set returned when the registry has no entries
(the literal constructed in `VersionDetector.capabilities`); the four
feature flags keep their dataclass defaults (false). -/
def emptyCapabilities : VersionCapabilities :=
  { source_databases := []
    target_databases := []
    migration_db_types := []
    tasks := []
    fk_modes := []
    migration_db_modes := []
    load_modes := [] }

/-- The scan of `VersionDetector.capabilities` over the sorted registry:
walk the entries in ascending order, remember the capabilities of every
version `<=` the detected one, and stop (`break`) at the first version
above it. -/
def bestLowerBound (d : MigratorXpressVersion) :
    List (MigratorXpressVersion × VersionCapabilities) →
    Option VersionCapabilities → Option VersionCapabilities
  | [], best => best
  | (v, c) :: rest, best =>
      if versionLe v d then bestLowerBound d rest (some c) else best

/-- Capability resolution (`VersionDetector.capabilities` in
`src/version.py`), as a function of the sorted registry and the cached
detection result: empty registry gives the all-empty set; failed detection
gives the registry's last (latest) entry; otherwise the scan's result, or
the latest entry when the scan found no version `<=` the detected one. -/
def resolveCapabilities
    (sorted : List (MigratorXpressVersion × VersionCapabilities))
    (detected : Option MigratorXpressVersion) : VersionCapabilities :=
  match sorted.getLast? with
  | none => emptyCapabilities
  | some lastEntry =>
    match detected with
    | none => lastEntry.2
    | some d =>
      match bestLowerBound d sorted none with
      | some best => best
      | none => lastEntry.2

/-! ## Parameter model (src/validators.py) -/

/-- Migration database modes (`MigrationDbMode` enum). -/
inductive MigrationDbMode where
  | preserve
  | truncate
  | drop
deriving DecidableEq, Repr

/-- The string value of a `MigrationDbMode` member. -/
def MigrationDbMode.value : MigrationDbMode → String
  | .preserve => "preserve"
  | .truncate => "truncate"
  | .drop => "drop"

/-- Data load modes (`LoadMode` enum). -/
inductive LoadMode where
  | truncate
  | append
deriving DecidableEq, Repr

/-- The string value of a `LoadMode` member. -/
def LoadMode.value : LoadMode → String
  | .truncate => "truncate"
  | .append => "append"

/-- Foreign key constraint modes (`FkMode` enum). -/
inductive FkMode where
  | trusted
  | untrusted
  | disabled
deriving DecidableEq, Repr

/-- The string value of an `FkMode` member. -/
def FkMode.value : FkMode → String
  | .trusted => "trusted"
  | .untrusted => "untrusted"
  | .disabled => "disabled"

/-- Log levels (`LogLevel` enum). -/
inductive LogLevel where
  | debug
  | info
  | warning
  | error
  | critical
deriving DecidableEq, Repr

/-- The string value of a `LogLevel` member. -/
def LogLevel.value : LogLevel → String
  | .debug => "DEBUG"
  | .info => "INFO"
  | .warning => "WARNING"
  | .error => "ERROR"
  | .critical => "CRITICAL"

/-- A Python float as this code uses it: `build_command` only ever calls
`str()` on the float fields, so a float is embedded as its decimal
rendering, an opaque string. -/
structure PyFloat where
  render : String
deriving DecidableEq, Repr

/-- The migration parameter model (`MigrationParams` in
`src/validators.py`): six required string fields and the optional fields,
in the order the Python model declares them.  The three plain boolean
flags default to false as in the Python model. -/
structure MigrationParams where
  auth_file : String
  source_db_auth_id : String
  source_db_name : String
  target_db_auth_id : String
  target_db_name : String
  migration_db_auth_id : String
  source_schema_name : Option String := none
  target_schema_name : Option String := none
  task_list : Option (List String) := none
  resume : Option String := none
  fasttransfer_dir_path : Option String := none
  fasttransfer_p : Option Int := none
  ft_large_table_th : Option Int := none
  n_jobs : Option Int := none
  cci_threshold : Option Int := none
  aci_threshold : Option Int := none
  migration_db_mode : Option MigrationDbMode := none
  compute_nbrows : Option String := none
  drop_tables_if_exists : Option String := none
  load_mode : Option LoadMode := none
  include_tables : Option String := none
  exclude_tables : Option String := none
  min_rows : Option Int := none
  max_rows : Option Int := none
  forced_int_id_prefixes : Option (List String) := none
  forced_int_id_suffixes : Option (List String) := none
  profiling_sample_pc : Option PyFloat := none
  p_query : Option PyFloat := none
  min_sample_pc_profile : Option PyFloat := none
  force : Bool := false
  basic_diff : Bool := false
  without_xid : Bool := false
  fk_mode : Option FkMode := none
  log_level : Option LogLevel := none
  log_dir : Option String := none
  no_banner : Bool := false
  no_progress : Bool := false
  quiet_ft : Bool := false
  license : Option String := none
  license_file : Option String := none
deriving DecidableEq, Repr

/-- The valid task identifiers: the values of the `TaskType` enum, used as
the membership set in `validate_task_list_values`. -/
def VALID_TASKS : List String :=
  ["translate", "create", "transfer", "diff", "copy_pk", "copy_ak", "copy_fk", "all"]

/-- The body of model validator `validate_task_list_values` for a present
task list: every task must be a `TaskType` value (the first offender
raises), and "all" must not be combined with any other entry.  Error
messages are abbreviated; only the success/failure split matters to the
callers. -/
def taskListCheck (l : List String) : Except String Unit :=
  match l.find? (fun task => !(VALID_TASKS.contains task)) with
  | some task => .error ("Invalid task " ++ task)
  | none =>
    if "all" ∈ l ∧ 1 < l.length then
      .error "Task all cannot be combined with other tasks."
    else
      .ok ()

/-- Model validator `validate_task_list_values`, the none case: an absent
task list is not checked at all. -/
def validate_task_list_values (p : MigrationParams) : Except String Unit :=
  match p.task_list with
  | none => .ok ()
  | some l => taskListCheck l

/-- A string-boolean field is acceptable when absent or exactly the literal
"true" or "false". -/
def stringBoolOk : Option String → Bool
  | none => true
  | some v => v == "true" || v == "false"

/-- Model validator `validate_string_booleans`: checks `compute_nbrows`
then `drop_tables_if_exists`, raising on the first bad literal. -/
def validate_string_booleans (p : MigrationParams) : Except String Unit :=
  if !stringBoolOk p.compute_nbrows then
    .error "compute_nbrows must be true or false"
  else if !stringBoolOk p.drop_tables_if_exists then
    .error "drop_tables_if_exists must be true or false"
  else
    .ok ()

/-- Model validator `validate_license_mutual_exclusivity`: `license` and
`license_file` may not both be set. -/
def validate_license_mutual_exclusivity (p : MigrationParams) : Except String Unit :=
  match p.license, p.license_file with
  | some _, some _ =>
      .error "license and license_file are mutually exclusive. Provide one or the other, not both."
  | _, _ => .ok ()

/-- Construction-time validation of `MigrationParams`: pydantic runs the
three mode-"after" model validators in declaration order and the first
raise aborts validation. -/
def validateParams (p : MigrationParams) : Except String MigrationParams :=
  match validate_task_list_values p with
  | .error e => .error e
  | .ok _ =>
    match validate_string_booleans p with
    | .error e => .error e
    | .ok _ =>
      match validate_license_mutual_exclusivity p with
      | .error e => .error e
      | .ok _ => .ok p

/-! ## Command builder (src/migratorxpress.py) -/

/-- Tokens for an optional string field gated by Python truthiness
(`if params.x:`): absent and the empty string emit nothing. -/
def optStrSeg (flag : String) (v : Option String) : List String :=
  match v with
  | none => []
  | some s => if s == "" then [] else [flag, s]

/-- Tokens for an optional string field gated by `is not None` (the two
string-boolean parameters): the literal value is passed through. -/
def optValSeg (flag : String) (v : Option String) : List String :=
  match v with
  | none => []
  | some s => [flag, s]

/-- Tokens for an optional integer field gated by `is not None`, the value
stringified in base 10 (`str(...)` in Python). -/
def optIntSeg (flag : String) (v : Option Int) : List String :=
  match v with
  | none => []
  | some n => [flag, toString n]

/-- Tokens for an optional float field gated by `is not None`; the float's
decimal rendering is its embedded representation. -/
def optFloatSeg (flag : String) (v : Option PyFloat) : List String :=
  match v with
  | none => []
  | some f => [flag, f.render]

/-- Tokens for a multi-value field (argparse nargs-style accumulation in
`build_command`): the flag token once, then each value as its own token.
Gated by truthiness, so the empty list emits nothing. -/
def optListSeg (flag : String) (v : Option (List String)) : List String :=
  match v with
  | none => []
  | some l => if l.isEmpty then [] else flag :: l

/-- Tokens for an optional enum field: Python truthiness on a str-enum
member whose values are all non-empty, so any set member emits the flag
and the member's string value. -/
def enumSeg {α : Type} (value : α → String) (flag : String) (v : Option α) : List String :=
  match v with
  | none => []
  | some m => [flag, value m]

/-- Tokens for a presence-only boolean flag: the token alone, only when the
flag is true. -/
def boolSeg (flag : String) (b : Bool) : List String :=
  if b then [flag] else []

/-- The command builder (`CommandBuilder.build_command` in
`src/migratorxpress.py`): the binary path, the required flags, then every
optional field in the source's fixed order.  MigratorXpress is a
single-command CLI, so no subcommand token is ever emitted. -/
def build_command (binary_path : String) (p : MigrationParams) : List String :=
  [binary_path,
   "-a", p.auth_file,
   "--source_db_auth_id", p.source_db_auth_id,
   "--source_db_name", p.source_db_name,
   "--target_db_auth_id", p.target_db_auth_id,
   "--target_db_name", p.target_db_name,
   "--migration_db_auth_id", p.migration_db_auth_id]
  ++ optStrSeg "--source_schema_name" p.source_schema_name
  ++ optStrSeg "--target_schema_name" p.target_schema_name
  ++ optListSeg "--task_list" p.task_list
  ++ optStrSeg "-r" p.resume
  ++ optStrSeg "--fasttransfer_dir_path" p.fasttransfer_dir_path
  ++ optIntSeg "-p" p.fasttransfer_p
  ++ optIntSeg "--ft_large_table_th" p.ft_large_table_th
  ++ optIntSeg "--n_jobs" p.n_jobs
  ++ optIntSeg "--cci_threshold" p.cci_threshold
  ++ optIntSeg "--aci_threshold" p.aci_threshold
  ++ enumSeg MigrationDbMode.value "--migration_db_mode" p.migration_db_mode
  ++ optValSeg "--compute_nbrows" p.compute_nbrows
  ++ optValSeg "--drop_tables_if_exists" p.drop_tables_if_exists
  ++ enumSeg LoadMode.value "--load_mode" p.load_mode
  ++ optStrSeg "-i" p.include_tables
  ++ optStrSeg "-e" p.exclude_tables
  ++ optIntSeg "-min" p.min_rows
  ++ optIntSeg "-max" p.max_rows
  ++ optListSeg "--forced_int_id_prefixes" p.forced_int_id_prefixes
  ++ optListSeg "--forced_int_id_suffixes" p.forced_int_id_suffixes
  ++ optFloatSeg "--profiling_sample_pc" p.profiling_sample_pc
  ++ optFloatSeg "--p_query" p.p_query
  ++ optFloatSeg "--min_sample_pc_profile" p.min_sample_pc_profile
  ++ boolSeg "-f" p.force
  ++ boolSeg "--basic_diff" p.basic_diff
  ++ boolSeg "--without_xid" p.without_xid
  ++ enumSeg FkMode.value "--fk_mode" p.fk_mode
  ++ enumSeg LogLevel.value "--log_level" p.log_level
  ++ optStrSeg "--log_dir" p.log_dir
  ++ boolSeg "--no_banner" p.no_banner
  ++ boolSeg "--no_progress" p.no_progress
  ++ boolSeg "--quiet_ft" p.quiet_ft
  ++ optStrSeg "--license" p.license
  ++ optStrSeg "--license_file" p.license_file

/-- The minimal valid parameter set of the end-to-end scenario: the six
required fields only. -/
def minimalParams : MigrationParams :=
  { auth_file := "auth.json"
    source_db_auth_id := "s"
    source_db_name := "d1"
    target_db_auth_id := "t"
    target_db_name := "d2"
    migration_db_auth_id := "m" }

/-- C1: for the minimal valid parameter set with every optional field
absent, `build_command` returns exactly the ten-token list
`[binary, "-a", "auth.json", "--source_db_auth_id", "s",
"--source_db_name", "d1", "--target_db_auth_id", "t", "--target_db_name",
"d2", "--migration_db_auth_id", "m"]`, with the binary path at position 0
and no subcommand token at position 1 (position 1 is the flag "-a"). -/
theorem c1_minimal_build : ∀ binary_path : String,
    build_command binary_path minimalParams =
      [binary_path, "-a", "auth.json",
       "--source_db_auth_id", "s", "--source_db_name", "d1",
       "--target_db_auth_id", "t", "--target_db_name", "d2",
       "--migration_db_auth_id", "m"]
    ∧ (build_command binary_path minimalParams)[0]? = some binary_path
    ∧ (build_command binary_path minimalParams)[1]? = some "-a" := by
  intro binary_path
  refine ⟨?_, ?_, ?_⟩ <;>
    simp [build_command, minimalParams, optStrSeg, optValSeg, optIntSeg,
      optFloatSeg, optListSeg, enumSeg, boolSeg]

/-! ## Secret masking (CommandBuilder.mask_sensitive) -/

/-- The fixed mask string substituted for a license value. -/
def MASK : String := "******"

/-- One iteration of the masking loop: at index `i` of the working list, if
the current token is "--license" and a next token exists, overwrite the
next token with the mask. -/
def maskStep (masked : List String) (i : Nat) : List String :=
  if masked[i]? = some "--license" ∧ i + 1 < masked.length then
    masked.set (i + 1) MASK
  else
    masked

/-- Secret masking (`CommandBuilder.mask_sensitive` in
`src/migratorxpress.py`): start from a copy of the command and run the
loop index over the whole list.  Python's `enumerate` reads the working
list as it is being updated, so a value that was just masked is seen as
"******", not as its original text. -/
def mask_sensitive (command : List String) : List String :=
  (List.range command.length).foldl maskStep command

/-- Structural form of the masking pass: on seeing "--license" with a
following token, keep the flag, mask the follower, and resume after it
(the follower has just been overwritten, so the loop cannot trigger on
it). -/
def maskScan : List String → List String
  | [] => []
  | [t] => [t]
  | t :: v :: rest =>
      if t = "--license" then t :: MASK :: maskScan rest
      else t :: maskScan (v :: rest)

/-- Masking as the spec's sentence literally reads: a token is replaced by
the mask exactly when the token before it in the input equals
"--license".  `prev` is the original previous token. -/
def claimMaskAux : Option String → List String → List String
  | _, [] => []
  | prev, t :: rest =>
      (if prev = some "--license" then MASK else t) :: claimMaskAux (some t) rest

/-- The spec-sentence masking of a whole command. -/
def claimMask (command : List String) : List String :=
  claimMaskAux none command

/-- True when no two adjacent tokens both equal "--license". -/
def noAdjacentLicense : List String → Bool
  | a :: b :: rest => !(a == "--license" && b == "--license") && noAdjacentLicense (b :: rest)
  | _ => true

theorem getElem?_append_offset (pre l : List String) (k : Nat) :
    (pre ++ l)[pre.length + k]? = l[k]? := by
  rw [List.getElem?_append_right (Nat.le_add_right _ _)]
  congr 1
  omega

theorem maskStep_append_offset (pre l : List String) (k : Nat) :
    maskStep (pre ++ l) (pre.length + k) = pre ++ maskStep l k := by
  unfold maskStep
  rw [getElem?_append_offset, List.length_append]
  by_cases h : l[k]? = some "--license" ∧ k + 1 < l.length
  · rw [if_pos ⟨h.1, by omega⟩, if_pos h]
    have harith : pre.length + k + 1 = pre.length + (k + 1) := by omega
    rw [harith, List.set_append]
    simp
  · rw [if_neg (fun hc => h ⟨hc.1, by omega⟩), if_neg h]

theorem maskStep_append_zero (pre l : List String) :
    maskStep (pre ++ l) pre.length = pre ++ maskStep l 0 := by
  have h := maskStep_append_offset pre l 0
  simpa using h

theorem foldl_maskStep_eq (post : List String) : ∀ pre : List String,
    (List.range' pre.length post.length).foldl maskStep (pre ++ post)
      = pre ++ maskScan post := by
  induction post using maskScan.induct with
  | case1 =>
    intro pre
    simp [maskScan]
  | case2 t =>
    intro pre
    rw [show ([t] : List String).length = 1 from rfl, List.range'_one,
      List.foldl_cons, List.foldl_nil, maskStep_append_zero]
    have hstep : maskStep [t] 0 = [t] := by
      rw [maskStep, if_neg]
      intro hc
      exact absurd hc.2 (by simp)
    rw [hstep]
    rfl
  | case3 v rest ih =>
    intro pre
    rw [show ("--license" :: v :: rest : List String).length = rest.length + 1 + 1 from rfl,
      List.range'_succ, List.foldl_cons, maskStep_append_zero]
    have hstep1 : maskStep ("--license" :: v :: rest) 0 = "--license" :: MASK :: rest := by
      rw [maskStep, if_pos]
      · rfl
      · exact ⟨rfl, by simp⟩
    rw [hstep1, List.range'_succ, List.foldl_cons]
    have hstep2 : maskStep (pre ++ "--license" :: MASK :: rest) (pre.length + 1)
        = pre ++ "--license" :: MASK :: rest := by
      rw [maskStep_append_offset]
      have : maskStep ("--license" :: MASK :: rest) 1 = "--license" :: MASK :: rest := by
        rw [maskStep, if_neg]
        intro hc
        exact absurd hc.1 (by simp [MASK])
      rw [this]
    rw [hstep2]
    have hpre : pre ++ "--license" :: MASK :: rest
        = (pre ++ ["--license", MASK]) ++ rest := by simp
    have hlen : pre.length + 1 + 1 = (pre ++ ["--license", MASK]).length := by
      simp
    rw [hpre, hlen, ih (pre ++ ["--license", MASK])]
    simp [maskScan]
  | case4 t v rest hne ih =>
    intro pre
    rw [show (t :: v :: rest : List String).length = (v :: rest).length + 1 from rfl,
      List.range'_succ, List.foldl_cons, maskStep_append_zero]
    have hstep : maskStep (t :: v :: rest) 0 = t :: v :: rest := by
      rw [maskStep, if_neg]
      intro hc
      exact hne (by simpa using hc.1)
    rw [hstep]
    have hpre : pre ++ t :: v :: rest = (pre ++ [t]) ++ v :: rest := by simp
    have hlen : pre.length + 1 = (pre ++ [t]).length := by simp
    rw [hpre, hlen, ih (pre ++ [t])]
    simp [maskScan, hne]

theorem mask_sensitive_eq_maskScan (command : List String) :
    mask_sensitive command = maskScan command := by
  have h := foldl_maskStep_eq command []
  simpa [mask_sensitive, List.range_eq_range'] using h

theorem claimMaskAux_of_ne (v : String) (hv : v ≠ "--license") (l : List String) :
    claimMaskAux (some v) l = claimMaskAux none l := by
  cases l with
  | nil => rfl
  | cons t rest => simp [claimMaskAux, hv]

theorem noAdjacentLicense_tail (b : String) (l : List String)
    (h : noAdjacentLicense (b :: l) = true) : noAdjacentLicense l = true := by
  cases l with
  | nil => rfl
  | cons c r =>
    rw [noAdjacentLicense, Bool.and_eq_true] at h
    exact h.2

theorem maskScan_eq_claimMask (command : List String)
    (h : noAdjacentLicense command = true) :
    maskScan command = claimMask command := by
  induction command using maskScan.induct with
  | case1 => rfl
  | case2 t => rfl
  | case3 v rest ih =>
    have hv : v ≠ "--license" := by
      rw [noAdjacentLicense, Bool.and_eq_true] at h
      intro hc
      simp [hc] at h
    have hrest : noAdjacentLicense rest = true :=
      noAdjacentLicense_tail v rest (noAdjacentLicense_tail "--license" (v :: rest) h)
    rw [maskScan, if_pos rfl, claimMask, claimMaskAux, claimMaskAux,
      if_neg (by simp), if_pos rfl, claimMaskAux_of_ne v hv, ← claimMask,
      ← ih hrest]
  | case4 t v rest hne ih =>
    have hrest : noAdjacentLicense (v :: rest) = true :=
      noAdjacentLicense_tail t (v :: rest) h
    rw [maskScan, if_neg hne, claimMask, claimMaskAux,
      if_neg (by simp), claimMaskAux_of_ne t hne, ← claimMask, ← ih hrest]

theorem maskScan_of_no_license (command : List String)
    (h : "--license" ∉ command) : maskScan command = command := by
  induction command using maskScan.induct with
  | case1 => rfl
  | case2 t => rfl
  | case3 v rest ih =>
    exact absurd (List.mem_cons_self _ _) h
  | case4 t v rest hne ih =>
    rw [maskScan, if_neg hne, ih (fun hm => h (List.mem_cons_of_mem t hm))]

/-- C4 counterexample: on the command ["--license", "--license", "k"] the
code masks only the token at index 1 (the loop re-reads the list it is
updating, so the already-masked index 1 no longer triggers), while the
claim's reading — the token after every input "--license" token is
replaced — would also mask index 2. -/
theorem c4_counterexample :
    mask_sensitive ["--license", "--license", "k"] = ["--license", "******", "k"]
    ∧ claimMask ["--license", "--license", "k"] = ["--license", "******", "******"]
    ∧ mask_sensitive ["--license", "--license", "k"]
        ≠ claimMask ["--license", "--license", "k"] := by
  refine ⟨by decide, by decide, by decide⟩

/-- C4 (amended): `mask_sensitive` performs one left-to-right pass
(`maskScan`) in which a just-masked token is not re-examined as a flag; on
every command in which no two adjacent tokens both equal "--license" this
coincides with the claim's reading (the token after every "--license"
token of the input is replaced by "******"), and a command containing no
"--license" token is returned unchanged.  The function is pure, so the
input value is never mutated. -/
theorem c4_mask_sensitive_amended : ∀ command : List String,
    mask_sensitive command = maskScan command
    ∧ (noAdjacentLicense command = true → mask_sensitive command = claimMask command)
    ∧ ("--license" ∉ command → mask_sensitive command = command) := by
  intro command
  refine ⟨mask_sensitive_eq_maskScan command, ?_, ?_⟩
  · intro h
    rw [mask_sensitive_eq_maskScan command, maskScan_eq_claimMask command h]
  · intro h
    rw [mask_sensitive_eq_maskScan command, maskScan_of_no_license command h]

/-! ## Capability resolution claim (C2) -/

/-- C2: capability resolution over the fixed registry.  For a detected
version, the resolved capability set is the entry of the greatest registry
version `<=` it (the entry is a member, is `<=` the detected version, and
dominates every other qualifying registry version); when no registry
version qualifies, the latest known entry (caps_0_6_24) is returned; when
detection returned none, the latest known entry is returned; and on an
empty registry the resolution returns the capability set whose seven
identifier sets are all empty. -/
theorem c2_capability_resolution :
    (∀ detected : Option MigratorXpressVersion,
        resolveCapabilities [] detected = emptyCapabilities)
    ∧ emptyCapabilities.source_databases = []
    ∧ emptyCapabilities.target_databases = []
    ∧ emptyCapabilities.migration_db_types = []
    ∧ emptyCapabilities.tasks = []
    ∧ emptyCapabilities.fk_modes = []
    ∧ emptyCapabilities.migration_db_modes = []
    ∧ emptyCapabilities.load_modes = []
    ∧ resolveCapabilities SORTED_VERSIONS none = caps_0_6_24
    ∧ (∀ d : MigratorXpressVersion,
        (∃ e ∈ SORTED_VERSIONS,
            versionLe e.1 d = true
            ∧ (∀ e2 ∈ SORTED_VERSIONS, versionLe e2.1 d = true → versionLe e2.1 e.1 = true)
            ∧ resolveCapabilities SORTED_VERSIONS (some d) = e.2)
        ∨ ((∀ e2 ∈ SORTED_VERSIONS, versionLe e2.1 d = false)
            ∧ resolveCapabilities SORTED_VERSIONS (some d) = caps_0_6_24)) := by
  refine ⟨fun detected => rfl, rfl, rfl, rfl, rfl, rfl, rfl, rfl, rfl, fun d => ?_⟩
  cases hv : versionLe ⟨0, 6, 24⟩ d with
  | true =>
    left
    refine ⟨(⟨0, 6, 24⟩, caps_0_6_24), by simp [SORTED_VERSIONS], hv, ?_, ?_⟩
    · intro e2 he2 _
      simp only [SORTED_VERSIONS, List.mem_singleton] at he2
      rw [he2]
      decide
    · simp [resolveCapabilities, SORTED_VERSIONS, bestLowerBound, hv]
  | false =>
    right
    constructor
    · intro e2 he2
      simp only [SORTED_VERSIONS, List.mem_singleton] at he2
      rw [he2]
      exact hv
    · simp [resolveCapabilities, SORTED_VERSIONS, bestLowerBound, hv]

/-! ## Compatibility checker and preview pipeline (C3) -/

/-- Modelled from the spec: `check_version_compatibility` is imported by
`src/server.py` from the version module, but its definition is not among
the repository files given here.  Per the spec it is
`check(rawRequest, capabilities, detectedVersion) -> list<Warning>`, a
pure, side-effect-free, advisory-only function, so it is embedded as an
arbitrary pure function of that shape (a value of this type), quantified
over in the theorem. -/
def CompatCheck (Req : Type) : Type :=
  Req → VersionCapabilities → Option MigratorXpressVersion → List String

/-- The parts of the preview response that the claims speak about: the
warnings list, the built token list, and the space-joined full command
line offered for execution. -/
structure PreviewResult where
  warnings : List String
  command : List String
  full_command_line : String

/-- The preview pipeline of `handle_preview_command` in `src/server.py`,
for a request that passed parameter validation: compatibility warnings are
computed from the raw arguments and the resolver's state, the command is
built from the validated parameters, and the response carries both — the
warnings section only decorates the text, the executable command line is
the space-join of the built tokens. -/
def handle_preview_command {Req : Type} (check : CompatCheck Req)
    (binary_path : String) (caps : VersionCapabilities)
    (detected : Option MigratorXpressVersion) (args : Req)
    (p : MigrationParams) : PreviewResult :=
  let version_warnings := check args caps detected
  let command := build_command binary_path p
  { warnings := version_warnings
    command := command
    full_command_line := String.intercalate " " command }

/-- C3: the compatibility check is a pure function returning a list of
warning strings, and it never blocks command construction: the built
command equals `build_command` of the validated parameters whatever the
check returns, so two preview runs differing only in the check function
produce the same command tokens and the same full command line. -/
theorem c3_compat_check_advisory :
    ∀ (Req : Type) (check1 check2 : CompatCheck Req)
      (binary_path : String) (caps : VersionCapabilities)
      (detected : Option MigratorXpressVersion) (args : Req) (p : MigrationParams),
      (handle_preview_command check1 binary_path caps detected args p).command
          = build_command binary_path p
      ∧ (handle_preview_command check1 binary_path caps detected args p).warnings
          = check1 args caps detected
      ∧ (handle_preview_command check1 binary_path caps detected args p).command
          = (handle_preview_command check2 binary_path caps detected args p).command
      ∧ (handle_preview_command check1 binary_path caps detected args p).full_command_line
          = (handle_preview_command check2 binary_path caps detected args p).full_command_line := by
  intro Req check1 check2 binary_path caps detected args p
  exact ⟨rfl, rfl, rfl, rfl⟩

/-! ## Execution runner (C5) -/

/-- The possible outcomes of the `subprocess.run` call inside
`execute_command`: normal completion with any exit code and the captured
streams, `subprocess.TimeoutExpired`, or any other spawn/run exception
with its message. -/
inductive SubprocessOutcome where
  | completed (returncode : Int) (stdout stderr : String)
  | timedOut
  | failed (cause : String)
deriving DecidableEq, Repr

/-- The message of the `MigratorXpressError` raised on timeout; it carries
the configured timeout value. -/
def timeoutMessage (timeout : Nat) : String :=
  "Execution timed out after " ++ toString timeout ++ " seconds"

/-- The message of the `MigratorXpressError` raised on any other
execution failure; it wraps the underlying cause. -/
def failureMessage (cause : String) : String :=
  "Execution failed: " ++ cause

/-- The execution wrapper (`CommandBuilder.execute_command` in
`src/migratorxpress.py`) as a function of the subprocess outcome: normal
completion returns the (return_code, stdout, stderr) triple unchanged
(`check=False`, so a non-zero exit code does not raise), a timeout raises
the timeout error, and any other failure raises the wrapping error.  Log
persistence swallows its own exceptions and is not modelled. -/
def execute_command (run : SubprocessOutcome) (timeout : Nat) :
    Except String (Int × String × String) :=
  match run with
  | .completed rc out err => .ok (rc, out, err)
  | .timedOut => .error (timeoutMessage timeout)
  | .failed cause => .error (failureMessage cause)

/-- C5: `execute_command` raises exactly on timeout (with the configured
timeout value in the error, and no partial triple returned) and on any
other spawn/run failure (wrapping the cause); every normal completion,
including non-zero exit codes, returns the triple without raising, and an
error can only arise from the timeout or failure outcomes. -/
theorem c5_execute_command_errors : ∀ (run : SubprocessOutcome) (timeout : Nat),
    (∀ rc out err, run = .completed rc out err →
        execute_command run timeout = .ok (rc, out, err))
    ∧ (run = .timedOut →
        execute_command run timeout = .error (timeoutMessage timeout)
        ∧ ∀ result : Int × String × String, execute_command run timeout ≠ .ok result)
    ∧ (∀ cause, run = .failed cause →
        execute_command run timeout = .error (failureMessage cause))
    ∧ (∀ e, execute_command run timeout = .error e →
        run = .timedOut ∨ ∃ cause, run = .failed cause) := by
  intro run timeout
  refine ⟨?_, ?_, ?_, ?_⟩
  · intro rc out err h
    rw [h]
    rfl
  · intro h
    rw [h]
    exact ⟨rfl, fun result hc => by simp [execute_command] at hc⟩
  · intro cause h
    rw [h]
    rfl
  · intro e he
    cases run with
    | completed rc out err => simp [execute_command] at he
    | timedOut => exact Or.inl rfl
    | failed cause => exact Or.inr ⟨cause, rfl⟩

/-- C5 witness: a failing process completes normally with exit code 1 and
the wrapper returns the triple; a timed-out process yields the timeout
error with the configured value 3600. -/
theorem c5_execute_command_witness :
    execute_command (.completed 1 "" "Connection failed") 3600 = .ok (1, "", "Connection failed")
    ∧ execute_command .timedOut 3600 = .error (timeoutMessage 3600) := by
  exact ⟨(c5_execute_command_errors (.completed 1 "" "Connection failed") 3600).1 1 "" "Connection failed" rfl,
    ((c5_execute_command_errors .timedOut 3600).2.1 rfl).1⟩

/-! ## Execute tool handler (C6) -/

/-- The safety text returned when the confirmation flag is absent or
falsy (`handle_execute_command` in `src/server.py`). -/
def SAFETY_MESSAGE : String :=
  "# Execution Blocked\n\nYou must set `confirmation: true` to execute a command.\nThis safety mechanism ensures commands are only executed with explicit approval.\n\nPlease review the command carefully and confirm by setting:\n```json\n\x7b\"confirmation\": true\x7d\n```"

/-- The responses the execute handler can produce. -/
inductive ExecuteResponse where
  | blocked (text : String)
  | missingCommand (text : String)
  | parseFailure (text : String)
  | completedReport (returncode : Int) (stdout stderr : String)
  | executionFailure (text : String)
deriving DecidableEq, Repr

/-- Truthiness of `arguments.get("confirmation", False)`: an absent key
defaults to False; only the boolean true passes `if not ...`. -/
def truthy (confirmation : Option Bool) : Bool :=
  confirmation.getD false

/-- The execute tool handler (`handle_execute_command` in
`src/server.py`), once the builder is initialized: a falsy or absent
confirmation blocks with the safety message before anything else; an
empty command string is rejected; then the string is tokenized
(`shlex.split`, embedded as an opaque fallible tokenizer) and the
resulting token list executed.  The boolean of the result records whether
the execution runner was reached. -/
def handle_execute_command (confirmation : Option Bool) (command_str : String)
    (tokenize : String → Except String (List String))
    (runner : List String → Except String (Int × String × String)) :
    ExecuteResponse × Bool :=
  if truthy confirmation = false then
    (.blocked SAFETY_MESSAGE, false)
  else if command_str = "" then
    (.missingCommand "Error: No command provided. Please provide the command from preview_command.", false)
  else
    match tokenize command_str with
    | .error e => (.parseFailure ("Error parsing command: " ++ e), false)
    | .ok command =>
      match runner command with
      | .ok (rc, out, err) => (.completedReport rc out err, true)
      | .error e => (.executionFailure e, true)

/-- C6: whenever the confirmation argument is absent or false, the execute
handler returns the safety message and the runner is never reached;
conversely, any outcome in which the runner was reached can only have
arisen from confirmation = true. -/
theorem c6_confirmation_gate :
    ∀ (confirmation : Option Bool) (command_str : String)
      (tokenize : String → Except String (List String))
      (runner : List String → Except String (Int × String × String)),
      ((confirmation = none ∨ confirmation = some false) →
          handle_execute_command confirmation command_str tokenize runner
            = (.blocked SAFETY_MESSAGE, false))
      ∧ (∀ response : ExecuteResponse,
          handle_execute_command confirmation command_str tokenize runner
            = (response, true) →
          confirmation = some true) := by
  intro confirmation command_str tokenize runner
  constructor
  · rintro (rfl | rfl) <;> rfl
  · intro response h
    match confirmation with
    | some true => rfl
    | none =>
      rw [handle_execute_command] at h
      simp [truthy] at h
    | some false =>
      rw [handle_execute_command] at h
      simp [truthy] at h

/-- C6 witness: with the confirmation absent, the handler blocks with the
safety message and no execution occurs, even for a well-formed command
and an always-succeeding runner. -/
theorem c6_confirmation_gate_witness :
    handle_execute_command none "MigratorXpress -a auth.json"
        (fun s => .ok (s.splitOn " ")) (fun _ => .ok (0, "done", ""))
      = (.blocked SAFETY_MESSAGE, false) :=
  (c6_confirmation_gate none "MigratorXpress -a auth.json"
    (fun s => .ok (s.splitOn " ")) (fun _ => .ok (0, "done", ""))).1 (Or.inl rfl)

/-! ## Validation claims (C8, C9) -/

/-- C8: a task list containing "all" together with at least one other task
fails parameter validation; a task list of exactly ["all"] passes the
task-list validator, and passes full validation whenever the other two
validators accept the parameter set. -/
theorem c8_task_all_exclusive :
    (∀ (p : MigrationParams) (l : List String),
        p.task_list = some l → "all" ∈ l → (∃ t ∈ l, t ≠ "all") →
        ∃ e, validateParams p = .error e)
    ∧ (∀ p : MigrationParams, p.task_list = some ["all"] →
        validate_task_list_values p = .ok ()
        ∧ (validate_string_booleans p = .ok () →
           validate_license_mutual_exclusivity p = .ok () →
           validateParams p = .ok p)) := by
  constructor
  · intro p l hp hall hother
    have hsome : validate_task_list_values p = taskListCheck l := by
      simp only [validate_task_list_values, hp]
    have hlen : 1 < l.length := by
      rcases l with _ | ⟨a, _ | ⟨b, rest⟩⟩
      · cases hall
      · obtain ⟨t, htl, htne⟩ := hother
        simp only [List.mem_singleton] at hall htl
        exact absurd (htl.trans hall.symm) htne
      · simp
    have htask : ∃ e, validate_task_list_values p = .error e := by
      rw [hsome]
      cases hfind : l.find? (fun task => !(VALID_TASKS.contains task)) with
      | some task =>
        refine ⟨"Invalid task " ++ task, ?_⟩
        simp only [taskListCheck, hfind]
      | none =>
        refine ⟨"Task all cannot be combined with other tasks.", ?_⟩
        simp only [taskListCheck, hfind]
        rw [if_pos ⟨hall, hlen⟩]
    obtain ⟨e, he⟩ := htask
    exact ⟨e, by rw [validateParams, he]⟩
  · intro p hp
    have h1 : validate_task_list_values p = .ok () := by
      simp only [validate_task_list_values, hp]
      rfl
    refine ⟨h1, fun h2 h3 => ?_⟩
    rw [validateParams, h1, h2, h3]

/-- C8 sample inputs: the minimal parameter set with task list
["all", "create"] (invalid) and with ["all"] alone (valid). -/
def c8badParams : MigrationParams :=
  { minimalParams with task_list := some ["all", "create"] }

/-- The minimal parameter set with task list exactly ["all"]. -/
def c8okParams : MigrationParams :=
  { minimalParams with task_list := some ["all"] }

/-- C8 witness: ["all", "create"] is rejected and ["all"] alone is
accepted, on the minimal parameter set. -/
theorem c8_task_all_exclusive_witness :
    (∃ e, validateParams c8badParams = .error e)
    ∧ validateParams c8okParams = .ok c8okParams := by
  constructor
  · exact c8_task_all_exclusive.1 c8badParams ["all", "create"] rfl (by simp)
      ⟨"create", by simp, by decide⟩
  · exact (c8_task_all_exclusive.2 c8okParams rfl).2 rfl rfl

/-- C9: a parameter set with both `license` and `license_file` set fails
parameter validation; a set with at most one of the two set passes the
mutual-exclusivity check. -/
theorem c9_license_exclusive :
    (∀ (p : MigrationParams) (a b : String),
        p.license = some a → p.license_file = some b →
        ∃ e, validateParams p = .error e)
    ∧ (∀ p : MigrationParams, (p.license = none ∨ p.license_file = none) →
        validate_license_mutual_exclusivity p = .ok ()) := by
  constructor
  · intro p a b ha hb
    cases h1 : validate_task_list_values p with
    | error e => exact ⟨e, by rw [validateParams, h1]⟩
    | ok u =>
      cases h2 : validate_string_booleans p with
      | error e => exact ⟨e, by rw [validateParams, h1, h2]⟩
      | ok u2 =>
        exact ⟨"license and license_file are mutually exclusive. Provide one or the other, not both.",
          by rw [validateParams, h1, h2, validate_license_mutual_exclusivity, ha, hb]⟩
  · intro p h
    rcases h with h | h
    · rw [validate_license_mutual_exclusivity, h]
    · rw [validate_license_mutual_exclusivity, h]
      cases p.license <;> rfl

/-- C9 witness: both license fields set on the minimal parameter set is
rejected; only the license key set passes the mutual-exclusivity check. -/
theorem c9_license_exclusive_witness :
    (∃ e, validateParams
        { minimalParams with license := some "SECRET", license_file := some "lic.txt" } = .error e)
    ∧ validate_license_mutual_exclusivity
        { minimalParams with license := some "SECRET" } = .ok () := by
  constructor
  · exact c9_license_exclusive.1
      { minimalParams with license := some "SECRET", license_file := some "lic.txt" }
      "SECRET" "lic.txt" rfl rfl
  · exact c9_license_exclusive.2 { minimalParams with license := some "SECRET" } (Or.inr rfl)

/-! ## Token accounting for the builder (C7, C10) -/

/-- Value tokens of the required fields and the leading optional string
fields. -/
def valueTokensA (p : MigrationParams) : List String :=
  [p.auth_file, p.source_db_auth_id, p.source_db_name,
   p.target_db_auth_id, p.target_db_name, p.migration_db_auth_id]
  ++ p.source_schema_name.toList
  ++ p.target_schema_name.toList
  ++ p.task_list.getD []
  ++ p.resume.toList
  ++ p.fasttransfer_dir_path.toList

/-- Value tokens of the numeric, enum and string-boolean fields up to the
load mode. -/
def valueTokensB (p : MigrationParams) : List String :=
  (p.fasttransfer_p.map toString).toList
  ++ (p.ft_large_table_th.map toString).toList
  ++ (p.n_jobs.map toString).toList
  ++ (p.cci_threshold.map toString).toList
  ++ (p.aci_threshold.map toString).toList
  ++ (p.migration_db_mode.map MigrationDbMode.value).toList
  ++ p.compute_nbrows.toList
  ++ p.drop_tables_if_exists.toList
  ++ (p.load_mode.map LoadMode.value).toList

/-- Value tokens of the filtering fields and the affix lists. -/
def valueTokensC (p : MigrationParams) : List String :=
  p.include_tables.toList
  ++ p.exclude_tables.toList
  ++ (p.min_rows.map toString).toList
  ++ (p.max_rows.map toString).toList
  ++ p.forced_int_id_prefixes.getD []
  ++ p.forced_int_id_suffixes.getD []

/-- Value tokens of the profiling, FK, logging and license fields. -/
def valueTokensD (p : MigrationParams) : List String :=
  (p.profiling_sample_pc.map PyFloat.render).toList
  ++ (p.p_query.map PyFloat.render).toList
  ++ (p.min_sample_pc_profile.map PyFloat.render).toList
  ++ (p.fk_mode.map FkMode.value).toList
  ++ (p.log_level.map LogLevel.value).toList
  ++ p.log_dir.toList
  ++ p.license.toList
  ++ p.license_file.toList

/-- Every token `build_command` can emit in a value position (as opposed
to a flag position), over all fields of the parameter set. -/
def valueTokens (p : MigrationParams) : List String :=
  valueTokensA p ++ valueTokensB p ++ valueTokensC p ++ valueTokensD p

/-- Every flag literal `build_command` emits other than the three
multi-value flags. -/
def FIXED_FLAGS : List String :=
  ["-a", "--source_db_auth_id", "--source_db_name", "--target_db_auth_id",
   "--target_db_name", "--migration_db_auth_id", "--source_schema_name",
   "--target_schema_name", "-r", "--fasttransfer_dir_path", "-p",
   "--ft_large_table_th", "--n_jobs", "--cci_threshold", "--aci_threshold",
   "--migration_db_mode", "--compute_nbrows", "--drop_tables_if_exists",
   "--load_mode", "-i", "-e", "-min", "-max", "--profiling_sample_pc",
   "--p_query", "--min_sample_pc_profile", "-f", "--basic_diff",
   "--without_xid", "--fk_mode", "--log_level", "--log_dir", "--no_banner",
   "--no_progress", "--quiet_ft", "--license", "--license_file"]

theorem count_optStrSeg_zero {c f : String} {v : Option String}
    (hf : c ≠ f) (hv : ∀ s, v = some s → c ≠ s) :
    (optStrSeg f v).count c = 0 := by
  rw [List.count_eq_zero]
  intro hm
  cases v with
  | none => simp [optStrSeg] at hm
  | some s =>
    simp only [optStrSeg] at hm
    split at hm
    · simp at hm
    · simp at hm
      rcases hm with h | h
      · exact hf h
      · exact hv s rfl h

theorem count_optValSeg_zero {c f : String} {v : Option String}
    (hf : c ≠ f) (hv : ∀ s, v = some s → c ≠ s) :
    (optValSeg f v).count c = 0 := by
  rw [List.count_eq_zero]
  intro hm
  cases v with
  | none => simp [optValSeg] at hm
  | some s =>
    simp only [optValSeg] at hm
    simp at hm
    rcases hm with h | h
    · exact hf h
    · exact hv s rfl h

theorem count_optIntSeg_zero {c f : String} {v : Option Int}
    (hf : c ≠ f) (hv : ∀ n, v = some n → c ≠ toString n) :
    (optIntSeg f v).count c = 0 := by
  rw [List.count_eq_zero]
  intro hm
  cases v with
  | none => simp [optIntSeg] at hm
  | some n =>
    simp only [optIntSeg] at hm
    simp at hm
    rcases hm with h | h
    · exact hf h
    · exact hv n rfl h

theorem count_optFloatSeg_zero {c f : String} {v : Option PyFloat}
    (hf : c ≠ f) (hv : ∀ x, v = some x → c ≠ x.render) :
    (optFloatSeg f v).count c = 0 := by
  rw [List.count_eq_zero]
  intro hm
  cases v with
  | none => simp [optFloatSeg] at hm
  | some x =>
    simp only [optFloatSeg] at hm
    simp at hm
    rcases hm with h | h
    · exact hf h
    · exact hv x rfl h

theorem count_enumSeg_zero {α : Type} {value : α → String} {c f : String}
    {v : Option α} (hf : c ≠ f) (hv : ∀ m, v = some m → c ≠ value m) :
    (enumSeg value f v).count c = 0 := by
  rw [List.count_eq_zero]
  intro hm
  cases v with
  | none => simp [enumSeg] at hm
  | some m =>
    simp only [enumSeg] at hm
    simp at hm
    rcases hm with h | h
    · exact hf h
    · exact hv m rfl h

theorem count_optListSeg_zero {c f : String} {v : Option (List String)}
    (hf : c ≠ f) (hv : ∀ L, v = some L → c ∉ L) :
    (optListSeg f v).count c = 0 := by
  rw [List.count_eq_zero]
  intro hm
  cases v with
  | none => simp [optListSeg] at hm
  | some L =>
    simp only [optListSeg] at hm
    split at hm
    · simp at hm
    · simp at hm
      rcases hm with h | h
      · exact hf h
      · exact hv L rfl h

theorem count_boolSeg_zero {c f : String} {b : Bool} (hf : c ≠ f) :
    (boolSeg f b).count c = 0 := by
  rw [List.count_eq_zero]
  intro hm
  cases b with
  | false => simp [boolSeg] at hm
  | true =>
    simp only [boolSeg, if_true] at hm
    simp at hm
    exact hf hm

theorem count_optListSeg_pos {c : String} {l : List String}
    (hne : l ≠ []) (hnotin : c ∉ l) :
    (optListSeg c (some l)).count c = 1 := by
  cases l with
  | nil => exact absurd rfl hne
  | cons a t =>
    have he : optListSeg c (some (a :: t)) = c :: a :: t := rfl
    rw [he, List.count_cons, List.count_eq_zero.2 hnotin]
    simp

/-- Counting a token that is neither the binary path, a value token, nor
one of the single-value flags: every occurrence lies in one of the three
multi-value segments. -/
theorem build_count_multi (bin : String) (p : MigrationParams) (c : String)
    (hval : c ∉ bin :: valueTokens p) (hflag : c ∉ FIXED_FLAGS) :
    (build_command bin p).count c =
      (optListSeg "--task_list" p.task_list).count c
      + (optListSeg "--forced_int_id_prefixes" p.forced_int_id_prefixes).count c
      + (optListSeg "--forced_int_id_suffixes" p.forced_int_id_suffixes).count c := by
  have hfall : ∀ f ∈ FIXED_FLAGS, c ≠ f := fun f hf he => hflag (he ▸ hf)
  have hb : c ≠ bin := fun he => hval (by rw [he]; exact List.mem_cons_self _ _)
  have hv1 : c ≠ p.auth_file := fun he => hval (by rw [he]; simp [valueTokens, valueTokensA, valueTokensB, valueTokensC, valueTokensD])
  have hv2 : c ≠ p.source_db_auth_id := fun he => hval (by rw [he]; simp [valueTokens, valueTokensA, valueTokensB, valueTokensC, valueTokensD])
  have hv3 : c ≠ p.source_db_name := fun he => hval (by rw [he]; simp [valueTokens, valueTokensA, valueTokensB, valueTokensC, valueTokensD])
  have hv4 : c ≠ p.target_db_auth_id := fun he => hval (by rw [he]; simp [valueTokens, valueTokensA, valueTokensB, valueTokensC, valueTokensD])
  have hv5 : c ≠ p.target_db_name := fun he => hval (by rw [he]; simp [valueTokens, valueTokensA, valueTokensB, valueTokensC, valueTokensD])
  have hv6 : c ≠ p.migration_db_auth_id := fun he => hval (by rw [he]; simp [valueTokens, valueTokensA, valueTokensB, valueTokensC, valueTokensD])
  have hsrc : ∀ s, p.source_schema_name = some s → c ≠ s := by
    intro s hs he
    exact hval (by rw [he]; simp [valueTokens, valueTokensA, valueTokensB, valueTokensC, valueTokensD, hs])
  have htgt : ∀ s, p.target_schema_name = some s → c ≠ s := by
    intro s hs he
    exact hval (by rw [he]; simp [valueTokens, valueTokensA, valueTokensB, valueTokensC, valueTokensD, hs])
  have hres : ∀ s, p.resume = some s → c ≠ s := by
    intro s hs he
    exact hval (by rw [he]; simp [valueTokens, valueTokensA, valueTokensB, valueTokensC, valueTokensD, hs])
  have hftd : ∀ s, p.fasttransfer_dir_path = some s → c ≠ s := by
    intro s hs he
    exact hval (by rw [he]; simp [valueTokens, valueTokensA, valueTokensB, valueTokensC, valueTokensD, hs])
  have hftp : ∀ n, p.fasttransfer_p = some n → c ≠ toString n := by
    intro n hn he
    exact hval (by rw [he]; simp [valueTokens, valueTokensA, valueTokensB, valueTokensC, valueTokensD, hn])
  have hfth : ∀ n, p.ft_large_table_th = some n → c ≠ toString n := by
    intro n hn he
    exact hval (by rw [he]; simp [valueTokens, valueTokensA, valueTokensB, valueTokensC, valueTokensD, hn])
  have hnj : ∀ n, p.n_jobs = some n → c ≠ toString n := by
    intro n hn he
    exact hval (by rw [he]; simp [valueTokens, valueTokensA, valueTokensB, valueTokensC, valueTokensD, hn])
  have hcci : ∀ n, p.cci_threshold = some n → c ≠ toString n := by
    intro n hn he
    exact hval (by rw [he]; simp [valueTokens, valueTokensA, valueTokensB, valueTokensC, valueTokensD, hn])
  have haci : ∀ n, p.aci_threshold = some n → c ≠ toString n := by
    intro n hn he
    exact hval (by rw [he]; simp [valueTokens, valueTokensA, valueTokensB, valueTokensC, valueTokensD, hn])
  have hmdm : ∀ m, p.migration_db_mode = some m → c ≠ m.value := by
    intro m hm he
    exact hval (by rw [he]; simp [valueTokens, valueTokensA, valueTokensB, valueTokensC, valueTokensD, hm])
  have hcnb : ∀ s, p.compute_nbrows = some s → c ≠ s := by
    intro s hs he
    exact hval (by rw [he]; simp [valueTokens, valueTokensA, valueTokensB, valueTokensC, valueTokensD, hs])
  have hdte : ∀ s, p.drop_tables_if_exists = some s → c ≠ s := by
    intro s hs he
    exact hval (by rw [he]; simp [valueTokens, valueTokensA, valueTokensB, valueTokensC, valueTokensD, hs])
  have hlm : ∀ m, p.load_mode = some m → c ≠ m.value := by
    intro m hm he
    exact hval (by rw [he]; simp [valueTokens, valueTokensA, valueTokensB, valueTokensC, valueTokensD, hm])
  have hinc : ∀ s, p.include_tables = some s → c ≠ s := by
    intro s hs he
    exact hval (by rw [he]; simp [valueTokens, valueTokensA, valueTokensB, valueTokensC, valueTokensD, hs])
  have hexc : ∀ s, p.exclude_tables = some s → c ≠ s := by
    intro s hs he
    exact hval (by rw [he]; simp [valueTokens, valueTokensA, valueTokensB, valueTokensC, valueTokensD, hs])
  have hmin : ∀ n, p.min_rows = some n → c ≠ toString n := by
    intro n hn he
    exact hval (by rw [he]; simp [valueTokens, valueTokensA, valueTokensB, valueTokensC, valueTokensD, hn])
  have hmax : ∀ n, p.max_rows = some n → c ≠ toString n := by
    intro n hn he
    exact hval (by rw [he]; simp [valueTokens, valueTokensA, valueTokensB, valueTokensC, valueTokensD, hn])
  have hpsp : ∀ x, p.profiling_sample_pc = some x → c ≠ x.render := by
    intro x hx he
    exact hval (by rw [he]; simp [valueTokens, valueTokensA, valueTokensB, valueTokensC, valueTokensD, hx])
  have hpq : ∀ x, p.p_query = some x → c ≠ x.render := by
    intro x hx he
    exact hval (by rw [he]; simp [valueTokens, valueTokensA, valueTokensB, valueTokensC, valueTokensD, hx])
  have hmsp : ∀ x, p.min_sample_pc_profile = some x → c ≠ x.render := by
    intro x hx he
    exact hval (by rw [he]; simp [valueTokens, valueTokensA, valueTokensB, valueTokensC, valueTokensD, hx])
  have hfk : ∀ m, p.fk_mode = some m → c ≠ m.value := by
    intro m hm he
    exact hval (by rw [he]; simp [valueTokens, valueTokensA, valueTokensB, valueTokensC, valueTokensD, hm])
  have hll : ∀ m, p.log_level = some m → c ≠ m.value := by
    intro m hm he
    exact hval (by rw [he]; simp [valueTokens, valueTokensA, valueTokensB, valueTokensC, valueTokensD, hm])
  have hld : ∀ s, p.log_dir = some s → c ≠ s := by
    intro s hs he
    exact hval (by rw [he]; simp [valueTokens, valueTokensA, valueTokensB, valueTokensC, valueTokensD, hs])
  have hlic : ∀ s, p.license = some s → c ≠ s := by
    intro s hs he
    exact hval (by rw [he]; simp [valueTokens, valueTokensA, valueTokensB, valueTokensC, valueTokensD, hs])
  have hlicf : ∀ s, p.license_file = some s → c ≠ s := by
    intro s hs he
    exact hval (by rw [he]; simp [valueTokens, valueTokensA, valueTokensB, valueTokensC, valueTokensD, hs])
  have hhead : ([bin, "-a", p.auth_file,
      "--source_db_auth_id", p.source_db_auth_id,
      "--source_db_name", p.source_db_name,
      "--target_db_auth_id", p.target_db_auth_id,
      "--target_db_name", p.target_db_name,
      "--migration_db_auth_id", p.migration_db_auth_id]).count c = 0 := by
    rw [List.count_eq_zero]
    intro hm
    simp only [List.mem_cons, List.not_mem_nil, or_false] at hm
    rcases hm with h | h | h | h | h | h | h | h | h | h | h | h | h
    exacts [hb h, hfall "-a" (by decide) h, hv1 h,
      hfall "--source_db_auth_id" (by decide) h, hv2 h,
      hfall "--source_db_name" (by decide) h, hv3 h,
      hfall "--target_db_auth_id" (by decide) h, hv4 h,
      hfall "--target_db_name" (by decide) h, hv5 h,
      hfall "--migration_db_auth_id" (by decide) h, hv6 h]
  simp only [build_command, List.count_append]
  rw [hhead,
    count_optStrSeg_zero (hfall "--source_schema_name" (by decide)) hsrc,
    count_optStrSeg_zero (hfall "--target_schema_name" (by decide)) htgt,
    count_optStrSeg_zero (hfall "-r" (by decide)) hres,
    count_optStrSeg_zero (hfall "--fasttransfer_dir_path" (by decide)) hftd,
    count_optIntSeg_zero (hfall "-p" (by decide)) hftp,
    count_optIntSeg_zero (hfall "--ft_large_table_th" (by decide)) hfth,
    count_optIntSeg_zero (hfall "--n_jobs" (by decide)) hnj,
    count_optIntSeg_zero (hfall "--cci_threshold" (by decide)) hcci,
    count_optIntSeg_zero (hfall "--aci_threshold" (by decide)) haci,
    count_enumSeg_zero (hfall "--migration_db_mode" (by decide)) hmdm,
    count_optValSeg_zero (hfall "--compute_nbrows" (by decide)) hcnb,
    count_optValSeg_zero (hfall "--drop_tables_if_exists" (by decide)) hdte,
    count_enumSeg_zero (hfall "--load_mode" (by decide)) hlm,
    count_optStrSeg_zero (hfall "-i" (by decide)) hinc,
    count_optStrSeg_zero (hfall "-e" (by decide)) hexc,
    count_optIntSeg_zero (hfall "-min" (by decide)) hmin,
    count_optIntSeg_zero (hfall "-max" (by decide)) hmax,
    count_optFloatSeg_zero (hfall "--profiling_sample_pc" (by decide)) hpsp,
    count_optFloatSeg_zero (hfall "--p_query" (by decide)) hpq,
    count_optFloatSeg_zero (hfall "--min_sample_pc_profile" (by decide)) hmsp,
    count_boolSeg_zero (hfall "-f" (by decide)),
    count_boolSeg_zero (hfall "--basic_diff" (by decide)),
    count_boolSeg_zero (hfall "--without_xid" (by decide)),
    count_enumSeg_zero (hfall "--fk_mode" (by decide)) hfk,
    count_enumSeg_zero (hfall "--log_level" (by decide)) hll,
    count_optStrSeg_zero (hfall "--log_dir" (by decide)) hld,
    count_boolSeg_zero (hfall "--no_banner" (by decide)),
    count_boolSeg_zero (hfall "--no_progress" (by decide)),
    count_boolSeg_zero (hfall "--quiet_ft" (by decide)),
    count_optStrSeg_zero (hfall "--license" (by decide)) hlic,
    count_optStrSeg_zero (hfall "--license_file" (by decide)) hlicf]
  omega

/-! ## Decomposition of the built command around notable segments -/

/-- The fixed leading tokens: binary path, auth file and the five required
database identifiers. -/
def headTokens (bin : String) (p : MigrationParams) : List String :=
  [bin, "-a", p.auth_file,
   "--source_db_auth_id", p.source_db_auth_id,
   "--source_db_name", p.source_db_name,
   "--target_db_auth_id", p.target_db_auth_id,
   "--target_db_name", p.target_db_name,
   "--migration_db_auth_id", p.migration_db_auth_id]

/-- The tokens emitted before the task-list segment. -/
def preTask (bin : String) (p : MigrationParams) : List String :=
  headTokens bin p
  ++ optStrSeg "--source_schema_name" p.source_schema_name
  ++ optStrSeg "--target_schema_name" p.target_schema_name

/-- The tokens between the task-list segment and the n_jobs segment. -/
def midA (p : MigrationParams) : List String :=
  optStrSeg "-r" p.resume
  ++ optStrSeg "--fasttransfer_dir_path" p.fasttransfer_dir_path
  ++ optIntSeg "-p" p.fasttransfer_p
  ++ optIntSeg "--ft_large_table_th" p.ft_large_table_th

/-- The tokens between the n_jobs segment and the compute_nbrows
segment. -/
def midB (p : MigrationParams) : List String :=
  optIntSeg "--cci_threshold" p.cci_threshold
  ++ optIntSeg "--aci_threshold" p.aci_threshold
  ++ enumSeg MigrationDbMode.value "--migration_db_mode" p.migration_db_mode

/-- The tokens between the compute_nbrows segment and the affix-list
segments. -/
def midC (p : MigrationParams) : List String :=
  optValSeg "--drop_tables_if_exists" p.drop_tables_if_exists
  ++ enumSeg LoadMode.value "--load_mode" p.load_mode
  ++ optStrSeg "-i" p.include_tables
  ++ optStrSeg "-e" p.exclude_tables
  ++ optIntSeg "-min" p.min_rows
  ++ optIntSeg "-max" p.max_rows

/-- The tokens emitted after the affix-list segments. -/
def postSuffixes (p : MigrationParams) : List String :=
  optFloatSeg "--profiling_sample_pc" p.profiling_sample_pc
  ++ optFloatSeg "--p_query" p.p_query
  ++ optFloatSeg "--min_sample_pc_profile" p.min_sample_pc_profile
  ++ boolSeg "-f" p.force
  ++ boolSeg "--basic_diff" p.basic_diff
  ++ boolSeg "--without_xid" p.without_xid
  ++ enumSeg FkMode.value "--fk_mode" p.fk_mode
  ++ enumSeg LogLevel.value "--log_level" p.log_level
  ++ optStrSeg "--log_dir" p.log_dir
  ++ boolSeg "--no_banner" p.no_banner
  ++ boolSeg "--no_progress" p.no_progress
  ++ boolSeg "--quiet_ft" p.quiet_ft
  ++ optStrSeg "--license" p.license
  ++ optStrSeg "--license_file" p.license_file

theorem build_command_decomposed (bin : String) (p : MigrationParams) :
    build_command bin p
      = preTask bin p
        ++ (optListSeg "--task_list" p.task_list
        ++ (midA p
        ++ (optIntSeg "--n_jobs" p.n_jobs
        ++ (midB p
        ++ (optValSeg "--compute_nbrows" p.compute_nbrows
        ++ (midC p
        ++ (optListSeg "--forced_int_id_prefixes" p.forced_int_id_prefixes
        ++ (optListSeg "--forced_int_id_suffixes" p.forced_int_id_suffixes
        ++ postSuffixes p)))))))) := by
  simp only [build_command, preTask, headTokens, midA, midB, midC, postSuffixes,
    List.append_assoc]

theorem optListSeg_of_ne_nil {f : String} {l : List String} (hne : l ≠ []) :
    optListSeg f (some l) = f :: l := by
  cases l with
  | nil => exact absurd rfl hne
  | cons a t => rfl

/-- C7 (amended): for a parameter set whose task list (respectively
forced-int-id prefix or suffix list) is set to a non-empty list, and in
which neither the binary path nor any parameter value collides with the
flag token, the built command contains the flag token exactly once,
immediately followed by the field's values in order. -/
theorem c7_multivalue_fields_amended : ∀ (bin : String) (p : MigrationParams),
    (∀ l, p.task_list = some l → l ≠ [] →
        "--task_list" ∉ bin :: valueTokens p →
        (build_command bin p).count "--task_list" = 1
        ∧ ∃ pre suf, build_command bin p = pre ++ "--task_list" :: (l ++ suf))
    ∧ (∀ l, p.forced_int_id_prefixes = some l → l ≠ [] →
        "--forced_int_id_prefixes" ∉ bin :: valueTokens p →
        (build_command bin p).count "--forced_int_id_prefixes" = 1
        ∧ ∃ pre suf, build_command bin p
            = pre ++ "--forced_int_id_prefixes" :: (l ++ suf))
    ∧ (∀ l, p.forced_int_id_suffixes = some l → l ≠ [] →
        "--forced_int_id_suffixes" ∉ bin :: valueTokens p →
        (build_command bin p).count "--forced_int_id_suffixes" = 1
        ∧ ∃ pre suf, build_command bin p
            = pre ++ "--forced_int_id_suffixes" :: (l ++ suf)) := by
  intro bin p
  refine ⟨?_, ?_, ?_⟩
  · intro l hset hne h
    have htaskv : ∀ L, p.task_list = some L → "--task_list" ∉ L := fun L hL hmem =>
      h (by simp [valueTokens, valueTokensA, valueTokensB, valueTokensC, valueTokensD, hL, hmem])
    have hprev : ∀ L, p.forced_int_id_prefixes = some L → "--task_list" ∉ L := fun L hL hmem =>
      h (by simp [valueTokens, valueTokensA, valueTokensB, valueTokensC, valueTokensD, hL, hmem])
    have hsufv : ∀ L, p.forced_int_id_suffixes = some L → "--task_list" ∉ L := fun L hL hmem =>
      h (by simp [valueTokens, valueTokensA, valueTokensB, valueTokensC, valueTokensD, hL, hmem])
    constructor
    · rw [build_count_multi bin p "--task_list" h (by decide), hset,
        optListSeg_of_ne_nil hne, List.count_cons,
        List.count_eq_zero.2 (htaskv l hset),
        count_optListSeg_zero (by decide) hprev,
        count_optListSeg_zero (by decide) hsufv]
      simp
    · refine ⟨preTask bin p,
        midA p
        ++ (optIntSeg "--n_jobs" p.n_jobs
        ++ (midB p
        ++ (optValSeg "--compute_nbrows" p.compute_nbrows
        ++ (midC p
        ++ (optListSeg "--forced_int_id_prefixes" p.forced_int_id_prefixes
        ++ (optListSeg "--forced_int_id_suffixes" p.forced_int_id_suffixes
        ++ postSuffixes p)))))), ?_⟩
      rw [build_command_decomposed, hset, optListSeg_of_ne_nil hne]
      simp [List.append_assoc]
  · intro l hset hne h
    have htaskv : ∀ L, p.task_list = some L → "--forced_int_id_prefixes" ∉ L := fun L hL hmem =>
      h (by simp [valueTokens, valueTokensA, valueTokensB, valueTokensC, valueTokensD, hL, hmem])
    have hprev : ∀ L, p.forced_int_id_prefixes = some L → "--forced_int_id_prefixes" ∉ L :=
      fun L hL hmem =>
        h (by simp [valueTokens, valueTokensA, valueTokensB, valueTokensC, valueTokensD, hL, hmem])
    have hsufv : ∀ L, p.forced_int_id_suffixes = some L → "--forced_int_id_prefixes" ∉ L :=
      fun L hL hmem =>
        h (by simp [valueTokens, valueTokensA, valueTokensB, valueTokensC, valueTokensD, hL, hmem])
    constructor
    · rw [build_count_multi bin p "--forced_int_id_prefixes" h (by decide), hset,
        optListSeg_of_ne_nil hne, List.count_cons,
        List.count_eq_zero.2 (hprev l hset),
        count_optListSeg_zero (by decide) htaskv,
        count_optListSeg_zero (by decide) hsufv]
      simp
    · refine ⟨preTask bin p
        ++ (optListSeg "--task_list" p.task_list
        ++ (midA p
        ++ (optIntSeg "--n_jobs" p.n_jobs
        ++ (midB p
        ++ (optValSeg "--compute_nbrows" p.compute_nbrows
        ++ midC p))))),
        optListSeg "--forced_int_id_suffixes" p.forced_int_id_suffixes
        ++ postSuffixes p, ?_⟩
      rw [build_command_decomposed, hset, optListSeg_of_ne_nil hne]
      simp [List.append_assoc]
  · intro l hset hne h
    have htaskv : ∀ L, p.task_list = some L → "--forced_int_id_suffixes" ∉ L := fun L hL hmem =>
      h (by simp [valueTokens, valueTokensA, valueTokensB, valueTokensC, valueTokensD, hL, hmem])
    have hprev : ∀ L, p.forced_int_id_prefixes = some L → "--forced_int_id_suffixes" ∉ L :=
      fun L hL hmem =>
        h (by simp [valueTokens, valueTokensA, valueTokensB, valueTokensC, valueTokensD, hL, hmem])
    have hsufv : ∀ L, p.forced_int_id_suffixes = some L → "--forced_int_id_suffixes" ∉ L :=
      fun L hL hmem =>
        h (by simp [valueTokens, valueTokensA, valueTokensB, valueTokensC, valueTokensD, hL, hmem])
    constructor
    · rw [build_count_multi bin p "--forced_int_id_suffixes" h (by decide), hset,
        optListSeg_of_ne_nil hne, List.count_cons,
        List.count_eq_zero.2 (hsufv l hset),
        count_optListSeg_zero (by decide) htaskv,
        count_optListSeg_zero (by decide) hprev]
      simp
    · refine ⟨preTask bin p
        ++ (optListSeg "--task_list" p.task_list
        ++ (midA p
        ++ (optIntSeg "--n_jobs" p.n_jobs
        ++ (midB p
        ++ (optValSeg "--compute_nbrows" p.compute_nbrows
        ++ (midC p
        ++ optListSeg "--forced_int_id_prefixes" p.forced_int_id_prefixes)))))),
        postSuffixes p, ?_⟩
      rw [build_command_decomposed, hset, optListSeg_of_ne_nil hne]
      simp [List.append_assoc]

/-- C7 counterexample input: a valid parameter set whose auth-file value
happens to equal the task-list flag token. -/
def c7cexParams : MigrationParams :=
  { minimalParams with auth_file := "--task_list", task_list := some ["all"] }

/-- C7 counterexample: the parameter set is valid and its task list is
set, yet the built command contains the token "--task_list" twice — once
as the emitted flag and once as the auth-file value — so the flag token
does not appear exactly once. -/
theorem c7_counterexample :
    validateParams c7cexParams = .ok c7cexParams
    ∧ c7cexParams.task_list = some ["all"]
    ∧ (build_command "MigratorXpress" c7cexParams).count "--task_list" = 2
    ∧ ¬ (build_command "MigratorXpress" c7cexParams).count "--task_list" = 1 := by
  refine ⟨rfl, rfl, by decide, by decide⟩

/-- C7 witness input: the minimal parameter set with two tasks. -/
def c7okParams : MigrationParams :=
  { minimalParams with task_list := some ["translate", "create"] }

/-- C7 witness: on a collision-free parameter set with two tasks, the
task-list flag appears exactly once in the built command. -/
theorem c7_multivalue_witness :
    (build_command "MigratorXpress" c7okParams).count "--task_list" = 1 :=
  ((c7_multivalue_fields_amended "MigratorXpress" c7okParams).1
    ["translate", "create"] rfl (by decide) (by decide)).1

/-- C10: the builder's presence tests.  Setting an optional string field
to the empty string, or an optional list field to the empty list, yields
exactly the same command as leaving the field absent; an optional numeric
field set to 0 emits its flag followed by "0"; and a string-boolean field
is emitted whenever it is not None, with its literal value. -/
theorem c10_presence_semantics : ∀ (bin : String) (p : MigrationParams),
    build_command bin { p with source_schema_name := some "" }
        = build_command bin { p with source_schema_name := none }
    ∧ build_command bin { p with target_schema_name := some "" }
        = build_command bin { p with target_schema_name := none }
    ∧ build_command bin { p with resume := some "" }
        = build_command bin { p with resume := none }
    ∧ build_command bin { p with fasttransfer_dir_path := some "" }
        = build_command bin { p with fasttransfer_dir_path := none }
    ∧ build_command bin { p with include_tables := some "" }
        = build_command bin { p with include_tables := none }
    ∧ build_command bin { p with exclude_tables := some "" }
        = build_command bin { p with exclude_tables := none }
    ∧ build_command bin { p with log_dir := some "" }
        = build_command bin { p with log_dir := none }
    ∧ build_command bin { p with license := some "" }
        = build_command bin { p with license := none }
    ∧ build_command bin { p with license_file := some "" }
        = build_command bin { p with license_file := none }
    ∧ build_command bin { p with task_list := some [] }
        = build_command bin { p with task_list := none }
    ∧ build_command bin { p with forced_int_id_prefixes := some [] }
        = build_command bin { p with forced_int_id_prefixes := none }
    ∧ build_command bin { p with forced_int_id_suffixes := some [] }
        = build_command bin { p with forced_int_id_suffixes := none }
    ∧ (∃ pre suf, build_command bin { p with n_jobs := some 0 }
        = pre ++ "--n_jobs" :: "0" :: suf)
    ∧ (∀ s : String, ∃ pre suf,
        build_command bin { p with compute_nbrows := some s }
          = pre ++ "--compute_nbrows" :: s :: suf) := by
  intro bin p
  refine ⟨rfl, rfl, rfl, rfl, rfl, rfl, rfl, rfl, rfl, rfl, rfl, rfl, ?_, ?_⟩
  · refine ⟨preTask bin { p with n_jobs := some 0 }
      ++ (optListSeg "--task_list" p.task_list ++ midA p),
      midB p
      ++ (optValSeg "--compute_nbrows" p.compute_nbrows
      ++ (midC p
      ++ (optListSeg "--forced_int_id_prefixes" p.forced_int_id_prefixes
      ++ (optListSeg "--forced_int_id_suffixes" p.forced_int_id_suffixes
      ++ postSuffixes p)))), ?_⟩
    have hseg : optIntSeg "--n_jobs" ({ p with n_jobs := some 0 } : MigrationParams).n_jobs
        = ["--n_jobs", "0"] := rfl
    rw [build_command_decomposed, hseg]
    simp [preTask, headTokens, midA, midB, midC, postSuffixes, List.append_assoc]
  · intro s
    refine ⟨preTask bin { p with compute_nbrows := some s }
      ++ (optListSeg "--task_list" p.task_list
      ++ (midA p
      ++ (optIntSeg "--n_jobs" p.n_jobs
      ++ midB p))),
      midC p
      ++ (optListSeg "--forced_int_id_prefixes" p.forced_int_id_prefixes
      ++ (optListSeg "--forced_int_id_suffixes" p.forced_int_id_suffixes
      ++ postSuffixes p)), ?_⟩
    have hseg : optValSeg "--compute_nbrows"
        ({ p with compute_nbrows := some s } : MigrationParams).compute_nbrows
        = ["--compute_nbrows", s] := rfl
    rw [build_command_decomposed, hseg]
    simp [preTask, headTokens, midA, midB, midC, postSuffixes, List.append_assoc]

end MXpress
